import Mathlib

/-!
Verification of the groupme-query repository's report-generation engine.

This file gives a shallow embedding of the algorithmic core of the two
source files:

* `querier.py` — the streaming report builder (`main`), its calendar
  helpers (`calculate_month_segment`, `month_segment_start`,
  `month_segment_end`, `day_suffix`), the avatar memoization in
  `create_chat_header`, the page construction in `new_day_page` and the
  text sanitizer `filter_text`.
* `groupme.py` — the merge phase of `GroupMe.get_chats`, and the
  `last_used` argument parsing in `get_cutoff` / `to_seconds`.

External collaborators (the GroupMe HTTP API, the `htmlwriter` document
builder, the filesystem, `datetime`) are modelled at their interfaces:
network fetches become explicit function parameters, filesystem calls
become an effect trace plus a list of pre-existing paths, and the
document/node tree is abstracted to exactly the structure `querier.py`
builds (a day page is a header that receives nav tabs plus a container
that receives chat blocks; the cover is a nested year/month/segment
nav-list).
-/

namespace GroupMeQuery

/-! ## Calendar utilities (querier.py lines 373-453) -/

/-- `MONTH_NAMES` from querier.py line 20. -/
def MONTH_NAMES : List String :=
  ["January", "February", "March", "April", "May", "June", "July",
   "August", "September", "October", "November", "December"]

/-- `MONTH_NAMES[month - 1]`; total version of the Python list indexing
(valid months 1-12 index inside the list). -/
def monthName (month : Nat) : String := MONTH_NAMES.getD (month - 1) ""

/-- `calculate_month_segment` (querier.py lines 373-383). -/
def calculate_month_segment (day : Nat) : Nat :=
  if day < 11 then 1
  else if day < 21 then 2
  else 3

/-- `month_segment_start` (querier.py lines 386-399). -/
def month_segment_start (month day year : Nat) : String :=
  if day < 11 then s!"{month}/1/{year}"
  else if day < 21 then s!"{month}/11/{year}"
  else s!"{month}/21/{year}"

/-- `month_segment_end` (querier.py lines 402-421). -/
def month_segment_end (month day year : Nat) : String :=
  if day < 11 then s!"{month}/10/{year}"
  else if day < 21 then s!"{month}/20/{year}"
  else if month ∈ [4, 6, 9, 11] then s!"{month}/30/{year}"
  else if month ≠ 2 then s!"{month}/31/{year}"
  else if year % 4 = 0 ∧ (year % 100 ≠ 0 ∨ year % 400 = 0) then s!"{month}/29/{year}"
  else s!"{month}/28/{year}"

/-- Model of Python `str.endswith`: the candidate ending, read as a
character list, is a suffix of the string's characters. -/
def pyEndsWith (s ending : String) : Bool :=
  ending.toList.isSuffixOf s.toList

/-- `day_suffix` (querier.py lines 441-453); `str(day).endswith(...)`
becomes `pyEndsWith (toString day) ...`. -/
def day_suffix (day : Nat) : String :=
  if pyEndsWith (toString day) "1" && !pyEndsWith (toString day) "11" then "st"
  else if pyEndsWith (toString day) "2" && !pyEndsWith (toString day) "12" then "nd"
  else if pyEndsWith (toString day) "3" && !pyEndsWith (toString day) "13" then "rd"
  else "th"

/-- Model of Python `str(n).zfill(2)`. -/
def zfill2 (n : Nat) : String :=
  if n < 10 then "0" ++ toString n else toString n

/-- `filter_text` (querier.py lines 456-474): the fixed
unicode-escape replacement table, applied by `str.replace` in the
dictionary's insertion order. -/
def filter_text (text : String) : String :=
  ((((text.replace "—" "-").replace "’" "&rsquo;").replace
      "“" "&ldquo;").replace "”" "&rdquo;").replace "…" "..."

/-! ## groupme.py: chat merging (`GroupMe.get_chats`, lines 182-201) -/

/-- A fetched chat as far as the merge phase of `GroupMe.get_chats` looks
at it: only `last_used` (a Unix timestamp) is inspected; `name` and the
group/direct-message distinction ride along. -/
structure ChatItem where
  name : String
  last_used : Nat
  isGroupChat : Bool
deriving DecidableEq

/-- The merge loop of `GroupMe.get_chats` (groupme.py lines 182-201):
while both lists are nonempty, take the group when its `last_used` is
strictly greater, otherwise take the direct message; then append
whichever list remains. -/
def mergeChats : List ChatItem → List ChatItem → List ChatItem
  | [], dms => dms
  | g :: gs, [] => g :: gs
  | g :: gs, d :: ds =>
    if d.last_used < g.last_used then g :: mergeChats gs (d :: ds)
    else d :: mergeChats (g :: gs) ds
termination_by gs ds => gs.length + ds.length

/-- The pure part of `GroupMe.get_chats` (groupme.py lines 97-201): the
paginated fetching of the two lists is network I/O performed by the API
collaborator; given the fetched `groups` and `direct_messages` lists the
function returns their merge. -/
def get_chats (groups direct_messages : List ChatItem) : List ChatItem :=
  mergeChats groups direct_messages

/-! ## groupme.py: `last_used` parsing (`get_cutoff`, `to_seconds`) -/

/-- Model of Python `str.split(sep)` for a one-character separator,
on the character list: every occurrence splits, empty pieces are kept,
and the empty string yields `[[]]` (Python: `'' .split('/') == ['']`). -/
def pySplit (sep : Char) : List Char → List (List Char)
  | [] => [[]]
  | c :: rest =>
    if c = sep then [] :: pySplit sep rest
    else
      match pySplit sep rest with
      | [] => [[c]]
      | h :: t => (c :: h) :: t

/-- Value of a list of decimal digit characters. -/
def digitsToNat (l : List Char) : Nat :=
  l.foldl (fun acc c => acc * 10 + (c.toNat - '0'.toNat)) 0

/-- The leading- and trailing-whitespace stripping Python `int` applies
to its argument. -/
def pyStrip (l : List Char) : List Char :=
  ((l.dropWhile Char.isWhitespace).reverse.dropWhile Char.isWhitespace).reverse

/-- Model of Python `int(s)`: surrounding whitespace is stripped, then
an optional sign followed by a nonempty run of ASCII decimal digits
parses; anything else raises `ValueError` (here: `none`). Python's
digit-grouping underscores and non-ASCII digits are outside the model;
the theorems below quantify only over ASCII digits and letters, a
fragment on which `int` and this model agree exactly. -/
def pyInt (l : List Char) : Option Int :=
  match pyStrip l with
  | [] => none
  | c :: rest =>
    if c = '+' then
      if rest ≠ [] ∧ rest.all Char.isDigit then some (digitsToNat rest) else none
    else if c = '-' then
      if rest ≠ [] ∧ rest.all Char.isDigit then some (-(digitsToNat rest : Int)) else none
    else if (c :: rest).all Char.isDigit then some (digitsToNat (c :: rest))
    else none

/-- `to_seconds` (groupme.py lines 260-296). The `"m"` and `"y"`
branches compute `int(time.time() - cutoff_date.timestamp())` through
the external `datetime`/`time` libraries; that computation is the
collaborator parameter `shiftTs number units`. An unknown unit raises
`GroupMeException` (here: `.error`). -/
def to_seconds (shiftTs : Int → String → Int) (number : Int) (units : String) :
    Except String Int :=
  if units = "min" then .ok (number * 60)
  else if units = "h" then .ok (number * 3600)
  else if units = "d" then .ok (number * 3600 * 24)
  else if units = "w" then .ok (number * 3600 * 24 * 7)
  else if units = "m" then .ok (shiftTs number "m")
  else if units = "y" then .ok (shiftTs number "y")
  else .error "Invalid units specified for last_used duration"

/-- `get_cutoff` (groupme.py lines 232-257). `time.time()` is the
parameter `now`; `datetime(year, month, day).timestamp()` is the
collaborator parameter `dateTs`. A one-component argument is split as
`number = last_used[0:len-1]`, `unit = last_used[len-1]`; a
three-component argument is parsed as a date; any other component count
raises `GroupMeException` (here: `.error`). Returns `none` for the empty
string (no cutoff). -/
def get_cutoff (now : Int) (shiftTs : Int → String → Int)
    (dateTs : Int → Int → Int → Int) (last_used : String) :
    Except String (Option Int) :=
  if last_used = "" then .ok none
  else
    if (pySplit '/' last_used.toList).length = 1 then
      match pyInt last_used.toList.dropLast with
      | none => .error "Invalid argument for argument \x22last_used\x22"
      | some number =>
        match to_seconds shiftTs number (String.mk [last_used.toList.getLastD ' ']) with
        | .error e => .error e
        | .ok timespan => .ok (some (now - timespan))
    else if (pySplit '/' last_used.toList).length = 3 then
      match pyInt ((pySplit '/' last_used.toList).getD 0 []),
            pyInt ((pySplit '/' last_used.toList).getD 1 []),
            pyInt ((pySplit '/' last_used.toList).getD 2 []) with
      | some month, some day, some year =>
        .ok (some (now - (now - dateTs year month day)))
      | _, _, _ => .error "Invalid argument for argument \x22last_used\x22"
    else .error "Invalid argument for argument \x22last_used\x22"

/-! ## The report tree builder (`querier.main`, querier.py lines 26-315)

The builder consumes the already-fetched, time-ascending message list.
A message's `time` field has shape `"M/D/YYYY hh:mm:ss a"`; the code
reads the date through `message.time.split(' ')[0].split('/')`, modelled
here by the numeric fields `month`/`day`/`year`, and the timestamp
through `''.join(message.time.split(' ')[1:])`, modelled by `timeOfDay`.
-/

/-- A message as `querier.main` consumes it (the relevant fields of the
`groupme.Message` collaborator object). -/
structure Msg where
  chat : String
  isGroup : Bool
  author : String
  authorPic : Option String
  text : Option String
  month : Nat
  day : Nat
  year : Nat
  timeOfDay : String
deriving DecidableEq

/-- The `"M/D/YYYY"` date part of `message.time`. -/
def dateStr (m : Msg) : String := s!"{m.month}/{m.day}/{m.year}"

/-- One segment-start entry on the cover page: an `li` with its label
wrapped in an `a` with an `href` (querier.py lines 144-148, 230-234). -/
structure SegEntry where
  label : String
  href : String
deriving DecidableEq

/-- A child of the cover's month `ul`: either a month-name `li` or the
`ul` of a month's segment entries. -/
inductive MonthItem where
  | monthTitle (s : String)
  | segs (l : List SegEntry)
deriving DecidableEq

/-- A child of the cover's year `ul`: either a year `li` or a month
`ul`. -/
inductive YearItem where
  | yearTitle (s : String)
  | months (l : List MonthItem)
deriving DecidableEq

/-- The cover page as assembled by `main`: title plus the year nav-list. -/
structure Cover where
  title : String
  years : List YearItem
deriving DecidableEq

/-- A segment cross-navigation tab stamped into a day page's header:
an `a`-wrapped `div class='nav'`, with `id='selected'` when it is the
page's own day (querier.py lines 180-185, 297-303). -/
structure Tab where
  label : String
  href : String
  selected : Bool
deriving DecidableEq

/-- One rendered message entry (querier.py lines 254-279). -/
structure MsgEntry where
  author : String
  authorPic : Option String
  timestamp : String
  text : Option String
deriving DecidableEq

/-- The chat header div built by `create_chat_header` (avatar image or
placeholder plus the chat name). -/
structure ChatHeader where
  chat : String
  avatar : Option String
  isGroup : Bool
deriving DecidableEq

/-- A closed chat block: its header and its `div class='messages'`. -/
structure ChatBlock where
  header : ChatHeader
  msgs : List MsgEntry
deriving DecidableEq

/-- A day page as `new_day_page` creates it: a header (title text, and
the nav tabs appended at segment close) and the container of chat
blocks. -/
structure Page where
  title : String
  headerText : String
  tabs : List Tab
  chats : List ChatBlock
deriving DecidableEq

/-- Filesystem / output effects of a run, in program order. -/
inductive Eff where
  | chdir (dir : String)
  | writeStyle (path : String)
  | mkdir (path : String)
  | promptRetry (path : String)
  | exportPage (path : String) (page : Page)
  | exportCover (cover : Cover)
deriving DecidableEq

/-- The avatar memoization dictionary `group_avatars` (querier.py line
23): chat name to cached avatar URL (which may be absent). -/
abbrev AvatarCache := List (String × Option String)

/-- `create_chat_header` (querier.py lines 342-370). `fetch name isDm`
models `user.get_chat(name, is_dm=isDm).image_url`; the returned triple
is the header, the updated cache, and the collaborator calls made. -/
def create_chat_header (fetch : String → Bool → Option String)
    (cache : AvatarCache) (m : Msg) :
    ChatHeader × AvatarCache × List (String × Bool) :=
  match cache.lookup m.chat with
  | some chat_avatar =>
    ({ chat := m.chat, avatar := chat_avatar, isGroup := m.isGroup }, cache, [])
  | none =>
    let chat_avatar := if m.isGroup then fetch m.chat false else fetch m.chat true
    ({ chat := m.chat, avatar := chat_avatar, isGroup := m.isGroup },
     (m.chat, chat_avatar) :: cache, [(m.chat, !m.isGroup)])

/-- `new_day_page` (querier.py lines 318-339); `start_date = ""` selects
the default segment start, as in the Python default argument. -/
def new_day_page (month day year : Nat) (username start_date : String) : Page :=
  let sd := if start_date = "" then month_segment_start month day year else start_date
  { title := s!"Messages {sd}-{month_segment_end month day year}",
    headerText :=
      s!"{username}\x27s GroupMe messages between {sd} and {month_segment_end month day year}",
    tabs := [],
    chats := [] }

/-- The month output directory `f'{year}/{month:02}-{MonthName}'`. -/
def monthDirPath (year month : Nat) : String :=
  s!"{year}/{zfill2 month}-{monthName month}"

/-- A day page's file name `f'{month}-{day:02}.html'`. -/
def dayFileName (month day : Nat) : String := s!"{month}-{zfill2 day}.html"

/-- A segment-start cover entry (querier.py lines 144-148 and 230-234). -/
def mkSegEntry (year month day : Nat) : SegEntry :=
  { label := s!"{monthName month} {day}{day_suffix day}",
    href := s!"{year}/{zfill2 month}-{monthName month}/{month}-{zfill2 day}.html" }

/-- Rendering of one message into its entry (querier.py lines 254-279). -/
def renderMsg (m : Msg) : MsgEntry :=
  { author := m.author,
    authorPic := m.authorPic,
    timestamp := m.timeOfDay,
    text := m.text.map filter_text }

/-- Closing a chat: the message container is attached to the chat div,
which is attached to the day page's container (querier.py lines 165-167,
286-288). -/
def addChatToPage (page : Page) (hdr : ChatHeader) (msgs : List MsgEntry) : Page :=
  { page with chats := page.chats ++ [{ header := hdr, msgs := msgs }] }

/-- The nav tabs stamped into one day page at segment close: one tab per
collected page, `selected` on the tab whose day equals the page's own
day (querier.py lines 179-185, 296-303). -/
def segTabs (month : Nat) (pages : List (Nat × Page)) (day : Nat) : List Tab :=
  pages.map fun p =>
    { label := s!"{monthName month} {p.1}{day_suffix p.1}",
      href := dayFileName month p.1,
      selected := p.1 == day }

/-- Stamping one page at segment close. -/
def stampPage (month : Nat) (pages : List (Nat × Page)) (day : Nat) (page : Page) :
    Page :=
  { page with tabs := page.tabs ++ segTabs month pages day }

/-- Segment flush (querier.py lines 177-186 and 294-304): every
collected page is stamped with the segment's tabs and exported to
`f'{year}/{month:02}-{Name}/{month}-{day:02}.html'`. -/
def flushSegment (year month : Nat) (pages : List (Nat × Page)) : List Eff :=
  pages.map fun p =>
    .exportPage (monthDirPath year month ++ "/" ++ dayFileName month p.1)
      (stampPage month pages p.1 p.2)

/-- Year-directory creation (querier.py lines 115-119 and 202-206):
`os.mkdir` inside `try`; on `FileExistsError` the user is prompted and
the creation retried (the model lets the retry succeed, the user having
deleted the conflicting entry). Returns the effects and the updated
set of pre-existing paths. -/
def mkdirProtected (path : String) (fs : List String) : List Eff × List String :=
  if path ∈ fs then
    ([Eff.promptRetry path, Eff.mkdir path], fs.filter (fun p => p ≠ path))
  else ([Eff.mkdir path], fs)

/-- Month-directory creation (querier.py lines 128 and 216): a bare
`os.mkdir`, so an existing path raises `FileExistsError` uncaught
(modelled as `.error path`). -/
def mkdirPlain (path : String) (fs : List String) :
    Except String (List Eff × List String) :=
  if path ∈ fs then .error path else .ok ([Eff.mkdir path], fs)

/-- The builder's rolling state across the single pass of `main`'s
message loop. `fetchLog` records every avatar collaborator call of the
run and `maxBuf` the peak length ever attained by `segmentPages`
(observers; they influence nothing). -/
structure BState where
  currYear : Nat
  currMonth : Nat
  currDay : Nat
  currSeg : Nat
  currChat : String
  chatHeader : ChatHeader
  msgContainer : List MsgEntry
  dayPage : Page
  segmentPages : List (Nat × Page)
  monthSegmentList : List SegEntry
  monthList : List MonthItem
  yearList : List YearItem
  cache : AvatarCache
  fs : List String
  effs : List Eff
  fetchLog : List (String × Bool)
  maxBuf : Nat
deriving DecidableEq

/-- The variables the month-change / year-change handling rewrites. -/
structure MYOut where
  yearList : List YearItem
  monthList : List MonthItem
  monthSegmentList : List SegEntry
  currYear : Nat
  currMonth : Nat
  fs : List String
  effs : List Eff
deriving DecidableEq

/-- The month-change / year-change handling nested inside a segment
change (querier.py lines 188-223): close the month's segment list into
the month list; on a year change additionally close the month list into
the year list, create the new year directory (protected) and start a new
month list; then create the new month directory (unprotected — may
raise) and stylesheet and start a new month name entry and a fresh
segment list. -/
def monthYearUpdate (st : BState) (m : Msg) (effs : List Eff) :
    Except String MYOut :=
  if m.month = st.currMonth then
    .ok ⟨st.yearList, st.monthList, st.monthSegmentList, st.currYear,
         st.currMonth, st.fs, effs⟩
  else
    let base : MYOut :=
      if m.year = st.currYear then
        ⟨st.yearList, st.monthList ++ [MonthItem.segs st.monthSegmentList],
         [], st.currYear, m.month, st.fs, effs⟩
      else
        let pr := mkdirProtected (toString m.year) st.fs
        ⟨st.yearList ++
           [YearItem.months (st.monthList ++ [MonthItem.segs st.monthSegmentList])] ++
           [YearItem.yearTitle (toString m.year)],
         [], [], m.year, m.month, pr.2, effs ++ pr.1⟩
    match mkdirPlain (monthDirPath base.currYear m.month) base.fs with
    | .error p => .error p
    | .ok em =>
      .ok { base with
            monthList := base.monthList ++ [MonthItem.monthTitle (monthName m.month)],
            fs := em.2,
            effs := base.effs ++ em.1 ++
              [Eff.writeStyle (monthDirPath base.currYear m.month ++ "/style.css")] }

/-- The segment-change branch of the loop (querier.py lines 170-251 with
line 175 true): close the day page into `segmentPages`, flush the
collected pages, run the nested month/year handling, then start the new
segment entry, day page and chat block. -/
def stepSegChange (username : String) (fetch : String → Bool → Option String)
    (st : BState) (m : Msg) : Except String BState :=
  let dayPage := addChatToPage st.dayPage st.chatHeader st.msgContainer
  let segmentPages := st.segmentPages ++ [(st.currDay, dayPage)]
  let maxBuf := max st.maxBuf segmentPages.length
  let effs := st.effs ++ flushSegment st.currYear st.currMonth segmentPages
  match monthYearUpdate st m effs with
  | .error p => .error p
  | .ok r =>
    let cc := create_chat_header fetch st.cache m
    .ok { currYear := r.currYear, currMonth := r.currMonth,
          currDay := m.day,
          currSeg := calculate_month_segment m.day,
          currChat := m.chat,
          chatHeader := cc.1,
          msgContainer := [renderMsg m],
          dayPage := new_day_page m.month m.day m.year username "",
          segmentPages := [],
          monthSegmentList :=
            r.monthSegmentList ++ [mkSegEntry r.currYear r.currMonth m.day],
          monthList := r.monthList, yearList := r.yearList,
          cache := cc.2.1, fs := r.fs, effs := r.effs,
          fetchLog := st.fetchLog ++ cc.2.2,
          maxBuf }

/-- The day-change branch without a segment change (querier.py lines
170-251 with line 175 false): close the day page into `segmentPages`
and start the new day page and chat block. -/
def stepDayInSeg (username : String) (fetch : String → Bool → Option String)
    (st : BState) (m : Msg) : BState :=
  let dayPage := addChatToPage st.dayPage st.chatHeader st.msgContainer
  let segmentPages := st.segmentPages ++ [(st.currDay, dayPage)]
  let cc := create_chat_header fetch st.cache m
  { st with
    currDay := m.day,
    currChat := m.chat,
    chatHeader := cc.1,
    msgContainer := [renderMsg m],
    dayPage := new_day_page m.month m.day m.year username "",
    segmentPages,
    cache := cc.2.1,
    fetchLog := st.fetchLog ++ cc.2.2,
    maxBuf := max st.maxBuf segmentPages.length }

/-- The chat-change branch on an unchanged day (querier.py lines
163-167, 244-251 with line 170 false): close the chat into the day page
and open a new chat block. -/
def stepChatOnly (fetch : String → Bool → Option String) (st : BState) (m : Msg) :
    BState :=
  let cc := create_chat_header fetch st.cache m
  { st with
    dayPage := addChatToPage st.dayPage st.chatHeader st.msgContainer,
    currChat := m.chat,
    chatHeader := cc.1,
    cache := cc.2.1,
    fetchLog := st.fetchLog ++ cc.2.2,
    msgContainer := [renderMsg m] }

/-- One iteration of `main`'s message loop (querier.py lines 161-279). -/
def stepMsg (username : String) (fetch : String → Bool → Option String)
    (st : BState) (m : Msg) : Except String BState :=
  if m.chat = st.currChat ∧ m.day = st.currDay then
    .ok { st with msgContainer := st.msgContainer ++ [renderMsg m] }
  else if m.day = st.currDay then
    .ok (stepChatOnly fetch st m)
  else if calculate_month_segment m.day = st.currSeg then
    .ok (stepDayInSeg username fetch st m)
  else stepSegChange username fetch st m

/-- The optional `os.chdir` effect (querier.py lines 80-81). -/
def chdirEffs (outputDir : Option String) : List Eff :=
  match outputDir with
  | some d => [Eff.chdir d]
  | none => []

/-- The pre-loop setup of `main` (querier.py lines 70-159), seeded from
the first message: cover stylesheet, first year directory (protected),
first month directory (unprotected) and stylesheet, first day page
(whose start date is the first message's date), first segment entry and
first chat header. -/
def initState (username : String) (outputDir : Option String)
    (fetch : String → Bool → Option String) (fs0 : List String) (m0 : Msg) :
    Except String BState :=
  let effs := chdirEffs outputDir ++ [Eff.writeStyle "style.css"]
  let pr := mkdirProtected (toString m0.year) fs0
  match mkdirPlain (monthDirPath m0.year m0.month) pr.2 with
  | .error p => .error p
  | .ok em =>
    let cc := create_chat_header fetch ([] : AvatarCache) m0
    .ok { currYear := m0.year, currMonth := m0.month, currDay := m0.day,
          currSeg := calculate_month_segment m0.day,
          currChat := m0.chat,
          chatHeader := cc.1,
          msgContainer := [],
          dayPage := new_day_page m0.month m0.day m0.year username (dateStr m0),
          segmentPages := [],
          monthSegmentList := [mkSegEntry m0.year m0.month m0.day],
          monthList := [MonthItem.monthTitle (monthName m0.month)],
          yearList := [YearItem.yearTitle (toString m0.year)],
          cache := cc.2.1, fs := em.2,
          effs := effs ++ pr.1 ++ em.1 ++
            [Eff.writeStyle (monthDirPath m0.year m0.month ++ "/style.css")],
          fetchLog := cc.2.2,
          maxBuf := 0 }

/-- The cover title text (querier.py lines 94-103); absent CLI options
are `none`. -/
def coverTitleText (username : String) (startOpt endOpt keywordOpt : Option String) :
    String :=
  let base := s!"{username}\x27s GroupMe messages"
  let base :=
    match startOpt, endOpt with
    | some s, some e => s!"{base} between {s} and {e}"
    | some s, none => s!"{base} since {s}"
    | none, some e => s!"{base} before {e}"
    | none, none => base
  match keywordOpt with
  | some k => s!"{base} containing \x22{k}\x22"
  | none => base

/-- End-of-stream finalization (querier.py lines 283-313): close the
last chat and day, flush the final segment, close the month and year
nav-lists and export the cover. -/
def finalizeRun (coverTitle : String) (st : BState) : BState :=
  let dayPage := addChatToPage st.dayPage st.chatHeader st.msgContainer
  let segmentPages := st.segmentPages ++ [(st.currDay, dayPage)]
  let maxBuf := max st.maxBuf segmentPages.length
  let effs := st.effs ++ flushSegment st.currYear st.currMonth segmentPages
  let monthList := st.monthList ++ [MonthItem.segs st.monthSegmentList]
  let yearList := st.yearList ++ [YearItem.months monthList]
  { st with
    dayPage, segmentPages, maxBuf, monthList, yearList,
    effs := effs ++ [Eff.exportCover { title := coverTitle, years := yearList }] }

/-- The outcome of a run: exit code, effect trace, and (for nonempty
input) the builder's final state. -/
structure RunResult where
  code : Int
  effs : List Eff
  finalState : Option BState
deriving DecidableEq

/-- `querier.main` from the point where the message list is in hand
(querier.py lines 65-315). The login and message fetching are external
collaborator I/O; an empty list returns exit code 0 before any
filesystem activity; an uncaught `FileExistsError` from a month
directory creation aborts the run (`.error`). -/
def main (username : String) (outputDir : Option String)
    (startOpt endOpt keywordOpt : Option String)
    (fetch : String → Bool → Option String) (fs0 : List String)
    (messages : List Msg) : Except String RunResult :=
  match messages with
  | [] => .ok { code := 0, effs := [], finalState := none }
  | m0 :: _ =>
    match initState username outputDir fetch fs0 m0 with
    | .error p => .error p
    | .ok st0 =>
      match messages.foldlM (stepMsg username fetch) st0 with
      | .error p => .error p
      | .ok st =>
        let stF := finalizeRun (coverTitleText username startOpt endOpt keywordOpt) st
        .ok { code := 0, effs := stF.effs, finalState := some stF }

/-! ### Run observers -/

/-- Paths of the `mkdir` effects of a trace. -/
def mkdirPaths (effs : List Eff) : List String :=
  effs.filterMap fun e =>
    match e with
    | .mkdir p => some p
    | _ => none

/-- Paths of the exported day pages of a trace. -/
def exportPaths (effs : List Eff) : List String :=
  effs.filterMap fun e =>
    match e with
    | .exportPage p _ => some p
    | _ => none

/-- Exported day pages of a trace: path paired with the page's nav tabs. -/
def exportTabs (effs : List Eff) : List (String × List Tab) :=
  effs.filterMap fun e =>
    match e with
    | .exportPage p pg => some (p, pg.tabs)
    | _ => none

/-- The effect trace of a run (empty if the run aborted). -/
def runEffs (r : Except String RunResult) : List Eff :=
  match r with
  | .ok v => v.effs
  | .error _ => []

/-- The exit code of a run, if it completed. -/
def runCode (r : Except String RunResult) : Option Int :=
  match r with
  | .ok v => some v.code
  | .error _ => none

/-- The final builder state of a completed nonempty run. -/
def runState (r : Except String RunResult) : Option BState :=
  match r with
  | .ok v => v.finalState
  | .error _ => none

/-- The peak `segmentPages` length of a run (0 if aborted or empty). -/
def runMaxBuf (r : Except String RunResult) : Nat :=
  match runState r with
  | some st => st.maxBuf
  | none => 0

/-- Number of avatar collaborator calls a run made for chat name `n`. -/
def runFetchCount (n : String) (r : Except String RunResult) : Nat :=
  match runState r with
  | some st => st.fetchLog.countP (fun e => e.1 == n)
  | none => 0

/-! ### Invariants used by the theorems -/

/-- Two-phase navigation invariant: no page sitting in the open-segment
buffer, nor the open day page, carries any nav tab yet. -/
abbrev InvT (st : BState) : Prop :=
  (∀ p ∈ st.segmentPages, p.2.tabs = ([] : List Tab)) ∧ st.dayPage.tabs = []

/-- `InvT` holds of whatever state the pre-loop setup produces. -/
def invTAfterInit (username : String) (outputDir : Option String)
    (fetch : String → Bool → Option String) (fs0 : List String) (m0 : Msg) : Prop :=
  ∀ st0, initState username outputDir fetch fs0 m0 = .ok st0 → InvT st0

/-- `InvT` holds of whatever state one loop iteration produces. -/
def invTAfterStep (username : String) (fetch : String → Bool → Option String)
    (st : BState) (m : Msg) : Prop :=
  ∀ st', stepMsg username fetch st m = .ok st' → InvT st'

/-- First day number of the segment a day belongs to. -/
def segStartNum (day : Nat) : Nat :=
  if day < 11 then 1 else if day < 21 then 11 else 21

/-- Buffer-bound invariant: the tracked segment index agrees with the
current day, the buffer holds fewer pages than days elapsed inside the
current segment, and the recorded peak is at most 11. -/
def Inv2 (st : BState) : Prop :=
  st.currSeg = calculate_month_segment st.currDay ∧
  st.segmentPages.length + segStartNum st.currDay ≤ st.currDay ∧
  st.currDay ≤ 31 ∧ st.maxBuf ≤ 11

/-- Memoization invariant for chat name `n`: no fetch yet while `n` is
uncached, and never more than one fetch. -/
def FetchInv (n : String) (st : BState) : Prop :=
  (st.cache.lookup n = none → st.fetchLog.countP (fun e => e.1 == n) = 0) ∧
  st.fetchLog.countP (fun e => e.1 == n) ≤ 1

/-- Sorted in non-increasing order of `last_used`. -/
abbrev NonInc (l : List ChatItem) : Prop :=
  List.Sorted (fun a b => b.last_used ≤ a.last_used) l

/-! ### Concrete runs used by the evaluation theorems -/

/-- A minimal message for concrete runs. -/
def sampleMsg (c : String) (month day year : Nat) : Msg :=
  { chat := c, isGroup := true, author := "Sam", authorPic := none,
    text := some "hello", month, day, year, timeOfDay := "1:00:00 PM" }

/-- An avatar collaborator that always reports no picture. -/
def noAvatarFetch : String → Bool → Option String := fun _ _ => none

/-- A run whose second message is in a new month (February) but in the
same third of the month (segment index 2) as the first (January 15 →
February 17). -/
def monthSkipRun : Except String RunResult :=
  main "User" none none none none noAvatarFetch []
    [sampleMsg "A" 1 15 2024, sampleMsg "A" 2 17 2024]

/-- A run with one message on each of the 11 days of January's third
segment (January 21-31). -/
def elevenDayRun : Except String RunResult :=
  main "User" none none none none noAvatarFetch []
    ((List.range 11).map fun i => sampleMsg "A" 1 (21 + i) 2024)

/-- An in-order run crossing three month boundaries while the segment
index stays 3, then flushing on reaching April 5 (segment index 1). -/
def crossMonthRun : Except String RunResult :=
  main "User" none none none none noAvatarFetch []
    [sampleMsg "A" 1 25 2024, sampleMsg "A" 2 27 2024, sampleMsg "A" 3 25 2024,
     sampleMsg "A" 3 28 2024, sampleMsg "A" 4 5 2024]

/-- Three chats across two days inside one segment. -/
def twoDayRun : Except String RunResult :=
  main "User" none none none none noAvatarFetch []
    [sampleMsg "X" 1 5 2024, sampleMsg "Y" 1 5 2024, sampleMsg "Z" 1 6 2024]

/-- A run whose output directory already contains the month directory
the builder wants to create. -/
def monthCollisionRun : Except String RunResult :=
  main "User" none none none none noAvatarFetch ["2024/01-January"]
    [sampleMsg "A" 1 5 2024]

/-- A run whose output directory already contains the year directory
the builder wants to create. -/
def yearCollisionRun : Except String RunResult :=
  main "User" none none none none noAvatarFetch ["2024"]
    [sampleMsg "A" 1 5 2024]

/-- A tabless page, for concrete witnesses. -/
def pgEmpty : Page :=
  { title := "t", headerText := "h", tabs := [], chats := [] }

/-- A small builder state, for concrete witnesses. -/
def stEmpty : BState :=
  { currYear := 2024, currMonth := 1, currDay := 5, currSeg := 1, currChat := "A",
    chatHeader := { chat := "A", avatar := none, isGroup := true },
    msgContainer := [], dayPage := pgEmpty, segmentPages := [],
    monthSegmentList := [], monthList := [], yearList := [],
    cache := [], fs := [], effs := [], fetchLog := [], maxBuf := 0 }

/-! ## Theorems -/

/-- C7: for every valid date, `month_segment_end` maps day < 11 to day
10, day < 21 to day 20, and day ≥ 21 to the last day of the month — 30
for months {4,6,9,11}, 31 for the others except February, and for
February 29 exactly when `year % 4 == 0 && (year % 100 != 0 || year %
400 == 0)`, else 28; in particular February 2024 gives day 29 and
February 2023 gives day 28. -/
theorem month_segment_end_spec (month day year : Nat)
    (hm1 : 1 ≤ month) (hm2 : month ≤ 12) (hd1 : 1 ≤ day) (hd2 : day ≤ 31) :
    (day < 11 → month_segment_end month day year = s!"{month}/10/{year}")
    ∧ (11 ≤ day → day < 21 → month_segment_end month day year = s!"{month}/20/{year}")
    ∧ (21 ≤ day → month ∈ [4, 6, 9, 11] →
        month_segment_end month day year = s!"{month}/30/{year}")
    ∧ (21 ≤ day → month ∉ [4, 6, 9, 11] → month ≠ 2 →
        month_segment_end month day year = s!"{month}/31/{year}")
    ∧ (21 ≤ day → month = 2 → year % 4 = 0 → (year % 100 ≠ 0 ∨ year % 400 = 0) →
        month_segment_end month day year = s!"{month}/29/{year}")
    ∧ (21 ≤ day → month = 2 → ¬(year % 4 = 0 ∧ (year % 100 ≠ 0 ∨ year % 400 = 0)) →
        month_segment_end month day year = s!"{month}/28/{year}")
    ∧ month_segment_end 2 21 2024 = "2/29/2024"
    ∧ month_segment_end 2 21 2023 = "2/28/2023" := by
  refine ⟨?_, ?_, ?_, ?_, ?_, ?_, by decide, by decide⟩
  · intro h
    simp only [month_segment_end]
    rw [if_pos h]
  · intro h1 h2
    simp only [month_segment_end]
    rw [if_neg (by omega), if_pos h2]
  · intro h hmem
    simp only [month_segment_end]
    rw [if_neg (by omega), if_neg (by omega), if_pos hmem]
  · intro h hmem hne
    simp only [month_segment_end]
    rw [if_neg (by omega), if_neg (by omega), if_neg hmem, if_pos hne]
  · intro h hm hy4 hy100
    subst hm
    simp only [month_segment_end]
    rw [if_neg (by omega), if_neg (by omega), if_neg (by decide),
        if_neg (by simp), if_pos ⟨hy4, hy100⟩]
  · intro h hm hnl
    subst hm
    simp only [month_segment_end]
    rw [if_neg (by omega), if_neg (by omega), if_neg (by decide),
        if_neg (by simp), if_neg hnl]

/-- Witness for `month_segment_end_spec` at February 21, leap year 2024. -/
theorem month_segment_end_spec_witness :
    (1 ≤ 2 ∧ 2 ≤ 12 ∧ 1 ≤ 21 ∧ 21 ≤ 31) ∧ month_segment_end 2 21 2024 = "2/29/2024" :=
  ⟨by decide,
   (month_segment_end_spec 2 21 2024 (by decide) (by decide) (by decide)
      (by decide)).2.2.2.2.2.2.1⟩

/-- C8: for day numbers 1-31, `day_suffix` returns "st" for 1, 21, 31,
"nd" for 2, 22, "rd" for 3, 23 and "th" for everything else including
11, 12, 13 — the suffix is determined by the last digit except that 11,
12, 13 are forced to "th". -/
theorem day_suffix_spec (day : Nat) (h1 : 1 ≤ day) (h2 : day ≤ 31) :
    (day_suffix day =
      (if day % 10 = 1 ∧ day ≠ 11 then "st"
       else if day % 10 = 2 ∧ day ≠ 12 then "nd"
       else if day % 10 = 3 ∧ day ≠ 13 then "rd"
       else "th"))
    ∧ (day = 1 ∨ day = 21 ∨ day = 31 → day_suffix day = "st")
    ∧ (day = 2 ∨ day = 22 → day_suffix day = "nd")
    ∧ (day = 3 ∨ day = 23 → day_suffix day = "rd")
    ∧ (day = 11 ∨ day = 12 ∨ day = 13 → day_suffix day = "th")
    ∧ (day % 10 ≠ 1 ∧ day % 10 ≠ 2 ∧ day % 10 ≠ 3 → day_suffix day = "th") := by
  interval_cases day <;> decide

/-- Witness for `day_suffix_spec` at day 21. -/
theorem day_suffix_spec_witness :
    (1 ≤ 21 ∧ 21 ≤ 31) ∧ day_suffix 21 = "st" :=
  ⟨by decide, (day_suffix_spec 21 (by decide) (by decide)).2.1 (Or.inr (Or.inl rfl))⟩

/-- C4: on an empty message list `main` returns exit code 0 with an
empty effect trace — no directory is created, no stylesheet, day page
or cover page is written, and there is no final builder state. -/
theorem main_empty_input (username : String) (outputDir : Option String)
    (startOpt endOpt keywordOpt : Option String)
    (fetch : String → Bool → Option String) (fs0 : List String) :
    main username outputDir startOpt endOpt keywordOpt fetch fs0 [] =
      .ok { code := 0, effs := [], finalState := none } := rfl

/-- C1 evaluation: on the in-order run January 15 → February 17 (same
chat) the month changes but the month-change actions never run — no
`2024/02-February` directory is created, the February day page is
exported under `2024/01-January`, and the builder still tracks month 1
at end of run. -/
theorem month_change_actions_skipped :
    runCode monthSkipRun = some 0
    ∧ "2024/02-February" ∉ mkdirPaths (runEffs monthSkipRun)
    ∧ "2024/01-January/1-17.html" ∈ exportPaths (runEffs monthSkipRun)
    ∧ (runState monthSkipRun).map BState.currMonth = some 1 := by decide

/-- C2 counterexample: with one message on each of January 21-31 (a
single in-order month, one segment) the open-segment page buffer peaks
at 11 entries, refuting the claimed bound of 10. -/
theorem eleven_day_segment_buffer :
    runMaxBuf elevenDayRun = 11 := by decide

/-- C3 counterexample: on the in-order run Jan 25, Feb 27, Mar 25,
Mar 28, Apr 5 the first flushed day page (January 25, whose segment
contains exactly one PageNode) receives 4 nav tabs, two of which are
marked selected, and the file `1-25.html` is written twice — refuting
"exactly one nav tab per PageNode in that same segment (the tab for its
own day marked selected)". -/
theorem cross_month_tab_stamping :
    ((exportTabs (runEffs crossMonthRun)).headD ("", [])).2.length = 4
    ∧ ((exportTabs (runEffs crossMonthRun)).headD ("", [])).2.countP
        (fun t => t.selected) = 2
    ∧ (exportPaths (runEffs crossMonthRun)).count "2024/01-January/1-25.html" = 2 := by
  decide

/-- C5 counterexample: a pre-existing month directory aborts the run
with an uncaught `FileExistsError` — no report, no confirmation, no
retry. -/
theorem month_collision_aborts :
    monthCollisionRun = .error "2024/01-January" := rfl

/-- C5 amended: only the year-directory creations follow the
report-and-retry-after-confirmation policy (first conjunct, and the
concrete year-collision run which completes with exit code 0 after
prompting); a month-directory collision is an uncaught error that
aborts the whole run (second conjunct). -/
theorem dir_collision_policy :
    (∀ (path : String) (fs : List String),
      (mkdirProtected path fs).1 =
        if path ∈ fs then [Eff.promptRetry path, Eff.mkdir path]
        else [Eff.mkdir path])
    ∧ (∀ (u : String) (s e k : Option String) (f : String → Bool → Option String)
        (fs : List String) (m0 : Msg) (rest : List Msg),
        monthDirPath m0.year m0.month ∈ fs → toString m0.year ∉ fs →
        main u none s e k f fs (m0 :: rest) = .error (monthDirPath m0.year m0.month))
    ∧ runCode yearCollisionRun = some 0
    ∧ Eff.promptRetry "2024" ∈ runEffs yearCollisionRun := by
  refine ⟨?_, ?_, by decide, by decide⟩
  · intro path fs
    by_cases h : path ∈ fs <;> simp [mkdirProtected, h]
  · intro u s e k f fs m0 rest h1 h2
    simp [main, initState, mkdirProtected, mkdirPlain, h1, h2]

/-- Witness for `dir_collision_policy`: a pre-existing
`2024/01-January` aborts the run with that path. -/
theorem dir_collision_policy_witness :
    (monthDirPath 2024 1 ∈ ["2024/01-January"] ∧
      toString 2024 ∉ ["2024/01-January"]) ∧
    main "User" none none none none noAvatarFetch ["2024/01-January"]
        [sampleMsg "A" 1 5 2024] = .error (monthDirPath 2024 1) :=
  ⟨⟨by decide, by decide⟩,
   dir_collision_policy.2.1 "User" none none none noAvatarFetch
     ["2024/01-January"] (sampleMsg "A" 1 5 2024) [] (by decide) (by decide)⟩

/-- The merge of `get_chats` is a permutation of the two fetched lists. -/
theorem mergeChats_perm (gs ds : List ChatItem) :
    (mergeChats gs ds).Perm (gs ++ ds) := by
  induction gs generalizing ds with
  | nil => simp [mergeChats]
  | cons g gs ih =>
    induction ds with
    | nil => simp [mergeChats]
    | cons d ds ihd =>
      simp only [mergeChats]
      split
      · exact List.Perm.cons g (ih (d :: ds))
      · exact (List.Perm.cons d ihd).trans List.perm_middle.symm

/-- The merge of `get_chats` preserves non-increasing `last_used`
order. -/
theorem mergeChats_sorted :
    ∀ gs ds : List ChatItem, NonInc gs → NonInc ds → NonInc (mergeChats gs ds) := by
  intro gs
  induction gs with
  | nil =>
    intro ds _ hd
    simpa [mergeChats] using hd
  | cons g gs ih =>
    intro ds
    induction ds with
    | nil =>
      intro hg _
      simpa [mergeChats] using hg
    | cons d ds ihd =>
      intro hg hd
      obtain ⟨hg1, hg2⟩ := List.sorted_cons.mp hg
      obtain ⟨hd1, hd2⟩ := List.sorted_cons.mp hd
      simp only [mergeChats]
      split
      · rename_i hlt
        refine List.sorted_cons.mpr ⟨?_, ih (d :: ds) hg2 hd⟩
        intro b hb
        rcases List.mem_append.mp ((mergeChats_perm gs (d :: ds)).mem_iff.mp hb) with hbg | hbd
        · exact hg1 b hbg
        · rcases List.mem_cons.mp hbd with rfl | hbd'
          · exact le_of_lt hlt
          · exact le_trans (hd1 b hbd') (le_of_lt hlt)
      · rename_i hge
        refine List.sorted_cons.mpr ⟨?_, ihd hg hd2⟩
        intro b hb
        rcases List.mem_append.mp ((mergeChats_perm (g :: gs) ds).mem_iff.mp hb) with hbg | hbd
        · rcases List.mem_cons.mp hbg with rfl | hbg'
          · omega
          · exact le_trans (hg1 b hbg') (by omega)
        · exact hd1 b hbd

/-- C9: given the two fetched lists each sorted in non-increasing
`last_used` order, `get_chats` returns a permutation of their
concatenation, itself sorted in non-increasing order, and on a
`last_used` tie the direct message is placed before the group. -/
theorem get_chats_spec (groups direct_messages : List ChatItem)
    (hg : NonInc groups) (hd : NonInc direct_messages) :
    (get_chats groups direct_messages).Perm (groups ++ direct_messages)
    ∧ NonInc (get_chats groups direct_messages)
    ∧ ∀ (g : ChatItem) (gs : List ChatItem) (d : ChatItem) (ds : List ChatItem),
        g.last_used = d.last_used →
        get_chats (g :: gs) (d :: ds) = d :: get_chats (g :: gs) ds := by
  refine ⟨mergeChats_perm groups direct_messages,
          mergeChats_sorted groups direct_messages hg hd, ?_⟩
  intro g gs d ds htie
  simp only [get_chats, mergeChats]
  rw [if_neg (by omega)]

/-- Witness for `get_chats_spec`: one group and one direct message with
equal `last_used`; the direct message comes first. -/
theorem get_chats_spec_witness :
    (NonInc [ChatItem.mk "g" 5 true] ∧ NonInc [ChatItem.mk "d" 5 false]) ∧
    get_chats [ChatItem.mk "g" 5 true] [ChatItem.mk "d" 5 false] =
      ChatItem.mk "d" 5 false :: get_chats [ChatItem.mk "g" 5 true] [] :=
  ⟨⟨by decide, by decide⟩,
   (get_chats_spec [ChatItem.mk "g" 5 true] [ChatItem.mk "d" 5 false]
      (by decide) (by decide)).2.2 (ChatItem.mk "g" 5 true) []
      (ChatItem.mk "d" 5 false) [] rfl⟩

/-- A digit character is not a separator or sign character. -/
theorem isDigit_ne_special (c : Char) (h : c.isDigit = true) :
    c ≠ '/' ∧ c ≠ '+' ∧ c ≠ '-' := by
  refine ⟨?_, ?_, ?_⟩ <;> rintro rfl <;> exact absurd h (by decide)

/-- Python `split` on a separator-free string returns the whole string. -/
theorem pySplit_no_sep (sep : Char) :
    ∀ l : List Char, (∀ c ∈ l, c ≠ sep) → pySplit sep l = [l] := by
  intro l
  induction l with
  | nil => intro _; rfl
  | cons c rest ih =>
    intro h
    have hc : c ≠ sep := h c (List.mem_cons_self c rest)
    have hrest := ih fun x hx => h x (List.mem_cons_of_mem c hx)
    simp [pySplit, hc, hrest]

/-- Python `split` on a string with exactly one separator returns two
pieces. -/
theorem pySplit_two (sep : Char) :
    ∀ a b : List Char, (∀ c ∈ a, c ≠ sep) → (∀ c ∈ b, c ≠ sep) →
      pySplit sep (a ++ sep :: b) = [a, b] := by
  intro a
  induction a with
  | nil =>
    intro b _ hb
    simp [pySplit, pySplit_no_sep sep b hb]
  | cons c a ih =>
    intro b h hb
    have hc : c ≠ sep := h c (List.mem_cons_self c a)
    have ha := ih b (fun x hx => h x (List.mem_cons_of_mem c hx)) hb
    simp [pySplit, hc, ha]

/-- A digit character is not whitespace. -/
theorem isDigit_not_ws (c : Char) (h : c.isDigit = true) :
    c.isWhitespace = false := by
  cases hw : c.isWhitespace
  · rfl
  · exfalso
    simp only [Char.isWhitespace, Bool.or_eq_true, decide_eq_true_eq] at hw
    rcases hw with ((rfl | rfl) | rfl) | rfl <;> exact absurd h (by decide)

/-- An ASCII letter is not a digit, not a slash and not whitespace. -/
theorem isAlpha_facts (c : Char) (h : c.isAlpha = true) :
    c.isDigit = false ∧ c ≠ '/' ∧ c.isWhitespace = false := by
  refine ⟨?_, ?_, ?_⟩
  · cases hd : c.isDigit
    · rfl
    · exfalso
      simp only [Char.isAlpha, Char.isUpper, Char.isLower, Bool.or_eq_true,
        Bool.and_eq_true, decide_eq_true_eq, ge_iff_le] at h
      simp only [Char.isDigit, Bool.and_eq_true, decide_eq_true_eq, ge_iff_le] at hd
      have hb : c.val.toNat ≤ (57 : Nat) := hd.2
      rcases h with ⟨h1, _⟩ | ⟨h1, _⟩
      · have ha : (65 : Nat) ≤ c.val.toNat := h1
        omega
      · have ha : (97 : Nat) ≤ c.val.toNat := h1
        omega
  · rintro rfl
    exact absurd h (by decide)
  · cases hw : c.isWhitespace
    · rfl
    · exfalso
      simp only [Char.isWhitespace, Bool.or_eq_true, decide_eq_true_eq] at hw
      rcases hw with ((rfl | rfl) | rfl) | rfl <;> exact absurd h (by decide)

/-- Whitespace stripping is the identity on whitespace-free strings. -/
theorem pyStrip_id (l : List Char) (h : ∀ c ∈ l, c.isWhitespace = false) :
    pyStrip l = l := by
  unfold pyStrip
  have h1 : l.dropWhile Char.isWhitespace = l := by
    cases l with
    | nil => rfl
    | cons a t =>
      rw [List.dropWhile_cons, if_neg]
      simp [h a (List.mem_cons_self a t)]
  rw [h1]
  cases hr : l.reverse with
  | nil =>
    rw [List.reverse_eq_nil_iff] at hr
    subst hr
    rfl
  | cons b s =>
    have hb : b ∈ l := by
      rw [← List.mem_reverse, hr]
      exact List.mem_cons_self b s
    rw [List.dropWhile_cons, if_neg (by simp [h b hb]), ← hr, List.reverse_reverse]

/-- `int()` accepts a nonempty all-digit string. -/
theorem pyInt_digits (l : List Char) (hne : l ≠ []) (h : ∀ c ∈ l, c.isDigit) :
    pyInt l = some (digitsToNat l) := by
  have hstrip : pyStrip l = l :=
    pyStrip_id l fun c hc => isDigit_not_ws c (h c hc)
  cases l with
  | nil => exact absurd rfl hne
  | cons c rest =>
    have hcd := h c (List.mem_cons_self c rest)
    have h1 := (isDigit_ne_special c hcd).2.1
    have h2 := (isDigit_ne_special c hcd).2.2
    simp [pyInt, hstrip, h1, h2, List.all_eq_true.mpr h]

/-- `int()` rejects a whitespace-free digit-headed string that is not
all digits. -/
theorem pyInt_not_all_digits (c : Char) (rest : List Char)
    (hcd : c.isDigit = true) (hws : ∀ x ∈ c :: rest, x.isWhitespace = false)
    (hnot : ¬ ∀ x ∈ c :: rest, x.isDigit = true) :
    pyInt (c :: rest) = none := by
  have hstrip : pyStrip (c :: rest) = c :: rest := pyStrip_id _ hws
  have h1 := (isDigit_ne_special c hcd).2.1
  have h2 := (isDigit_ne_special c hcd).2.2
  have hall : (c :: rest).all Char.isDigit = false :=
    Bool.eq_false_iff.mpr fun hall => hnot (List.all_eq_true.mp hall)
  simp [pyInt, hstrip, h1, h2, hall]

/-- C10: `get_cutoff` takes only the final character of a slash-free
`last_used` as the unit and everything before it as the number, so a
duration written with a multi-character alphabetic unit (such as `min`,
which `to_seconds` itself accepts — last conjunct) is rejected with
`Invalid argument for argument "last_used"`, the letters landing in the
number where `int()` refuses them; a two-component slash-separated
value is rejected the same way; a single-character unit parses, with
everything before the final character as the number. -/
theorem get_cutoff_spec (now : Int) (shiftTs : Int → String → Int)
    (dateTs : Int → Int → Int → Int) :
    (∀ ds us : List Char, ds ≠ [] → (∀ c ∈ ds, c.isDigit) →
      2 ≤ us.length → (∀ c ∈ us, c.isAlpha) →
      get_cutoff now shiftTs dateTs (String.mk (ds ++ us)) =
        .error "Invalid argument for argument \x22last_used\x22")
    ∧ (∀ a b : List Char, (∀ c ∈ a, c ≠ '/') → (∀ c ∈ b, c ≠ '/') →
      get_cutoff now shiftTs dateTs (String.mk (a ++ '/' :: b)) =
        .error "Invalid argument for argument \x22last_used\x22")
    ∧ (∀ ds : List Char, ds ≠ [] → (∀ c ∈ ds, c.isDigit) →
      get_cutoff now shiftTs dateTs (String.mk (ds ++ ['h'])) =
        .ok (some (now - digitsToNat ds * 3600)))
    ∧ (∀ number : Int, to_seconds shiftTs number "min" = .ok (number * 60)) := by
  refine ⟨?_, ?_, ?_, fun number => rfl⟩
  · intro ds us hne hd hlen hus
    have husne : us ≠ [] := by
      intro h
      subst h
      simp at hlen
    have hmkne : String.mk (ds ++ us) ≠ "" := by
      intro h
      apply hne
      have h0 : ds ++ us = ([] : List Char) := congrArg String.data h
      exact (List.append_eq_nil.mp h0).1
    have hsplit : pySplit '/' (String.mk (ds ++ us)).toList = [ds ++ us] := by
      refine pySplit_no_sep '/' (ds ++ us) fun c hc => ?_
      rcases List.mem_append.mp hc with h | h
      · exact (isDigit_ne_special c (hd c h)).1
      · exact (isAlpha_facts c (hus c h)).2.1
    have hdrop : (String.mk (ds ++ us)).toList.dropLast = ds ++ us.dropLast :=
      List.dropLast_append_of_ne_nil ds husne
    obtain ⟨c, ds', rfl⟩ : ∃ c ds', ds = c :: ds' := by
      cases ds with
      | nil => exact absurd rfl hne
      | cons c ds' => exact ⟨c, ds', rfl⟩
    obtain ⟨u0, u1, us', rfl⟩ : ∃ u0 u1 us', us = u0 :: u1 :: us' := by
      cases us with
      | nil => exact absurd rfl husne
      | cons u0 t =>
        cases t with
        | nil => simp at hlen
        | cons u1 us' => exact ⟨u0, u1, us', rfl⟩
    have hpy : pyInt ((c :: ds') ++ (u0 :: u1 :: us').dropLast) = none := by
      rw [List.cons_append]
      refine pyInt_not_all_digits c (ds' ++ (u0 :: u1 :: us').dropLast)
        (hd c (List.mem_cons_self c ds')) ?_ fun hall => ?_
      · intro x hx
        rcases List.mem_cons.mp hx with rfl | hx'
        · exact isDigit_not_ws x (hd x (List.mem_cons_self x ds'))
        · rcases List.mem_append.mp hx' with hxa | hxb
          · exact isDigit_not_ws x (hd x (List.mem_cons_of_mem c hxa))
          · exact (isAlpha_facts x (hus x (List.mem_of_mem_dropLast hxb))).2.2
      · have hu0 : u0 ∈ c :: (ds' ++ (u0 :: u1 :: us').dropLast) := by
          refine List.mem_cons_of_mem c (List.mem_append_right _ ?_)
          simp [List.dropLast]
        have := hall u0 hu0
        exact absurd this
          (by simp [(isAlpha_facts u0 (hus u0 (List.mem_cons_self u0 _))).1])
    have hpy2 : pyInt (c :: (ds' ++ u0 :: (u1 :: us').dropLast)) = none := by
      simpa using hpy
    have hdd : (c :: (ds' ++ u0 :: u1 :: us')).dropLast =
        (c :: ds') ++ (u0 :: u1 :: us').dropLast :=
      List.dropLast_append_of_ne_nil (c :: ds') husne
    simp only [get_cutoff]
    rw [if_neg hmkne, hsplit]
    simp [hdd, hpy2]
  · intro a b ha hb
    have hmkne : String.mk (a ++ '/' :: b) ≠ "" := by
      intro h
      have h0 : a ++ '/' :: b = ([] : List Char) := congrArg String.data h
      simp at h0
    have hsplit : pySplit '/' (String.mk (a ++ '/' :: b)).toList = [a, b] :=
      pySplit_two '/' a b ha hb
    simp only [get_cutoff]
    rw [if_neg hmkne, hsplit]
    simp
  · intro ds hne hd
    have hmkne : String.mk (ds ++ ['h']) ≠ "" := by
      intro h
      have h0 : ds ++ ['h'] = ([] : List Char) := congrArg String.data h
      simp at h0
    have hsplit : pySplit '/' (String.mk (ds ++ ['h'])).toList = [ds ++ ['h']] := by
      refine pySplit_no_sep '/' (ds ++ ['h']) fun c hc => ?_
      rcases List.mem_append.mp hc with h | h
      · exact (isDigit_ne_special c (hd c h)).1
      · simp only [List.mem_singleton] at h
        subst h
        decide
    have hdrop : (String.mk (ds ++ ['h'])).toList.dropLast = ds :=
      List.dropLast_concat
    have hlast : (String.mk (ds ++ ['h'])).toList.getLastD ' ' = 'h' :=
      List.getLastD_concat _ _ _
    simp only [get_cutoff]
    rw [if_neg hmkne, hsplit]
    simp [hdrop, hlast, pyInt_digits ds hne hd, to_seconds]

/-- An invariant preserved by every loop step holds after any
`foldlM` of steps. -/
theorem foldlM_except_inv {σ α : Type} (P : σ → Prop) (f : σ → α → Except String σ)
    (hstep : ∀ s a s', P s → f s a = .ok s' → P s') :
    ∀ (l : List α) (s s' : σ), P s → List.foldlM f s l = .ok s' → P s' := by
  intro l
  induction l with
  | nil =>
    intro s s' hP h
    simp only [List.foldlM_nil] at h
    cases h
    exact hP
  | cons a l ih =>
    intro s s' hP h
    rw [List.foldlM_cons] at h
    cases hfa : f s a with
    | error e =>
      rw [hfa] at h
      exact absurd h (by simp [Bind.bind, Except.bind])
    | ok s1 =>
      rw [hfa] at h
      exact ih s1 s' (hstep s a s1 hP hfa) (by simpa [Bind.bind, Except.bind] using h)

/-- Each loop iteration keeps the buffered pages and the open day page
free of nav tabs. -/
theorem stepMsg_invT (u : String) (f : String → Bool → Option String)
    (st : BState) (m : Msg) (st' : BState)
    (hI : InvT st) (h : stepMsg u f st m = .ok st') : InvT st' := by
  unfold stepMsg at h
  split_ifs at h with h1 h2 h3
  · simp only [Except.ok.injEq] at h
    subst h
    exact hI
  · simp only [Except.ok.injEq] at h
    subst h
    exact ⟨hI.1, hI.2⟩
  · simp only [Except.ok.injEq] at h
    subst h
    refine ⟨?_, rfl⟩
    intro p hp
    simp only [stepDayInSeg] at hp
    rcases List.mem_append.mp hp with hold | hnew
    · exact hI.1 p hold
    · simp only [List.mem_singleton] at hnew
      subst hnew
      exact hI.2
  · simp only [stepSegChange] at h
    split at h
    · exact absurd h (by simp)
    · simp only [Except.ok.injEq] at h
      subst h
      exact ⟨by simp, rfl⟩

/-- The pre-loop setup produces a state whose buffer and day page carry
no nav tabs. -/
theorem initState_invT (u : String) (outD : Option String)
    (f : String → Bool → Option String) (fs0 : List String) (m0 : Msg)
    (st0 : BState) (h : initState u outD f fs0 m0 = .ok st0) : InvT st0 := by
  simp only [initState] at h
  split at h
  · exact absurd h (by simp)
  · simp only [Except.ok.injEq] at h
    subst h
    exact ⟨by simp, rfl⟩

/-- Witness for `get_cutoff_spec`: the duration `5min` is rejected. -/
theorem get_cutoff_spec_witness :
    ((['5'] : List Char) ≠ [] ∧ (∀ c ∈ (['5'] : List Char), c.isDigit) ∧
      2 ≤ (['m', 'i', 'n'] : List Char).length ∧
      (∀ c ∈ (['m', 'i', 'n'] : List Char), c.isAlpha)) ∧
    get_cutoff 1000 (fun _ _ => 0) (fun _ _ _ => 0)
        (String.mk (['5'] ++ ['m', 'i', 'n'])) =
      .error "Invalid argument for argument \x22last_used\x22" :=
  ⟨by decide,
   (get_cutoff_spec 1000 (fun _ _ => 0) (fun _ _ _ => 0)).1 ['5'] ['m', 'i', 'n']
     (by decide) (by decide) (by decide) (by decide)⟩

/-- C3 amended: navigation is two-phase — the pre-loop state and every
loop step keep the open-segment buffer and the open day page free of
nav tabs (first two conjuncts), and at flush time each collected page
receives exactly one tab per flushed page, each flushed day being
linked, with the page's own tab selected (uniquely so when the flushed
days are distinct, as in any run confined to one month); on the
three-chat two-day single-segment run, exactly two day pages are
exported, each carrying the two tabs for both days with its own day
selected. -/
theorem segment_two_phase_nav :
    (∀ (u : String) (outD : Option String) (f : String → Bool → Option String)
        (fs0 : List String) (m0 : Msg), invTAfterInit u outD f fs0 m0)
    ∧ (∀ (u : String) (f : String → Bool → Option String) (st : BState) (m : Msg),
        InvT st → invTAfterStep u f st m)
    ∧ (∀ (month : Nat) (pages : List (Nat × Page)) (day : Nat) (pg : Page),
        pg.tabs = [] →
        ((stampPage month pages day pg).tabs.length = pages.length
         ∧ (∀ q ∈ pages, ∃ t ∈ (stampPage month pages day pg).tabs,
              t.href = dayFileName month q.1 ∧ t.selected = (q.1 == day))
         ∧ ((pages.map Prod.fst).Nodup → day ∈ pages.map Prod.fst →
              (stampPage month pages day pg).tabs.countP (fun t => t.selected) = 1)))
    ∧ exportTabs (runEffs twoDayRun) =
        [("2024/01-January/1-05.html",
          [{ label := "January 5th", href := "1-05.html", selected := true },
           { label := "January 6th", href := "1-06.html", selected := false }]),
         ("2024/01-January/1-06.html",
          [{ label := "January 5th", href := "1-05.html", selected := false },
           { label := "January 6th", href := "1-06.html", selected := true }])] := by
  refine ⟨?_, ?_, ?_, by decide⟩
  · intro u outD f fs0 m0 st0 h
    exact initState_invT u outD f fs0 m0 st0 h
  · intro u f st m hI st' h
    exact stepMsg_invT u f st m st' hI h
  · intro month pages day pg hpg
    refine ⟨?_, ?_, ?_⟩
    · simp [stampPage, segTabs, hpg]
    · intro q hq
      refine ⟨{ label := s!"{monthName month} {q.1}{day_suffix q.1}",
                href := dayFileName month q.1,
                selected := q.1 == day }, ?_, rfl, rfl⟩
      simp only [stampPage, segTabs, hpg, List.nil_append]
      exact List.mem_map_of_mem _ hq
    · intro hnodup hmem
      have h1 : (stampPage month pages day pg).tabs.countP (fun t => t.selected) =
          pages.countP (fun q => q.1 == day) := by
        simp [stampPage, segTabs, hpg, List.countP_map]
        rfl
      have h2 : pages.countP (fun q => q.1 == day) =
          (pages.map Prod.fst).countP (fun x => x == day) := by
        rw [List.countP_map]
        rfl
      rw [h1, h2]
      exact List.count_eq_one_of_mem hnodup hmem

/-- Witness for `segment_two_phase_nav`: a tabless state and page;
after one step the buffer is still tabless, and stamping two collected
days gives two tabs with the own day selected once. -/
theorem segment_two_phase_nav_witness :
    (InvT stEmpty ∧ pgEmpty.tabs = [] ∧
      ([(5, pgEmpty), (6, pgEmpty)].map Prod.fst).Nodup ∧
      5 ∈ [(5, pgEmpty), (6, pgEmpty)].map Prod.fst) ∧
    invTAfterStep "User" noAvatarFetch stEmpty (sampleMsg "A" 1 5 2024) ∧
    (stampPage 1 [(5, pgEmpty), (6, pgEmpty)] 5 pgEmpty).tabs.length = 2 ∧
    (stampPage 1 [(5, pgEmpty), (6, pgEmpty)] 5 pgEmpty).tabs.countP
      (fun t => t.selected) = 1 :=
  ⟨⟨by decide, by decide, by decide, by decide⟩,
   segment_two_phase_nav.2.1 "User" noAvatarFetch stEmpty (sampleMsg "A" 1 5 2024)
     (by decide),
   (segment_two_phase_nav.2.2.1 1 [(5, pgEmpty), (6, pgEmpty)] 5 pgEmpty
      (by decide)).1,
   (segment_two_phase_nav.2.2.1 1 [(5, pgEmpty), (6, pgEmpty)] 5 pgEmpty
      (by decide)).2.2 (by decide) (by decide)⟩

/-- One `create_chat_header` call keeps the per-name fetch count at
most one: a cached name adds no fetch event, an uncached name adds one
and becomes cached. -/
theorem create_chat_header_count (n : String) (f : String → Bool → Option String)
    (cache : AvatarCache) (m : Msg) (L : List (String × Bool))
    (h0 : cache.lookup n = none → L.countP (fun e => e.1 == n) = 0)
    (h1 : L.countP (fun e => e.1 == n) ≤ 1) :
    ((create_chat_header f cache m).2.1.lookup n = none →
      (L ++ (create_chat_header f cache m).2.2).countP (fun e => e.1 == n) = 0)
    ∧ (L ++ (create_chat_header f cache m).2.2).countP (fun e => e.1 == n) ≤ 1 := by
  unfold create_chat_header
  cases hc : cache.lookup m.chat with
  | some av =>
    simp only [hc, List.append_nil]
    exact ⟨h0, h1⟩
  | none =>
    simp only [hc]
    by_cases hn : m.chat = n
    · subst hn
      have hL0 : L.countP (fun e => e.1 == m.chat) = 0 := h0 hc
      constructor
      · intro hlk
        simp [List.lookup] at hlk
      · simp [List.countP_append, List.countP_cons, hL0]
    · have hbeq : (m.chat == n) = false := beq_eq_false_iff_ne.mpr hn
      have hbeq2 : (n == m.chat) = false :=
        beq_eq_false_iff_ne.mpr fun hh => hn hh.symm
      constructor
      · intro hlk
        have hcn : cache.lookup n = none := by
          simpa [List.lookup, hbeq2] using hlk
        simp [List.countP_append, List.countP_cons, h0 hcn, hbeq]
      · simp [List.countP_append, List.countP_cons, hbeq, h1]

/-- Each loop iteration preserves the memoization invariant. -/
theorem stepMsg_fetchInv (n : String) (u : String)
    (f : String → Bool → Option String) (st : BState) (m : Msg) (st' : BState)
    (hI : FetchInv n st) (h : stepMsg u f st m = .ok st') : FetchInv n st' := by
  unfold stepMsg at h
  split_ifs at h with h1 h2 h3
  · simp only [Except.ok.injEq] at h
    subst h
    exact hI
  · simp only [Except.ok.injEq] at h
    subst h
    exact create_chat_header_count n f st.cache m st.fetchLog hI.1 hI.2
  · simp only [Except.ok.injEq] at h
    subst h
    exact create_chat_header_count n f st.cache m st.fetchLog hI.1 hI.2
  · simp only [stepSegChange] at h
    split at h
    · exact absurd h (by simp)
    · simp only [Except.ok.injEq] at h
      subst h
      exact create_chat_header_count n f st.cache m st.fetchLog hI.1 hI.2

/-- The pre-loop setup establishes the memoization invariant. -/
theorem initState_fetchInv (n : String) (u : String) (outD : Option String)
    (f : String → Bool → Option String) (fs0 : List String) (m0 : Msg)
    (st0 : BState) (h : initState u outD f fs0 m0 = .ok st0) : FetchInv n st0 := by
  simp only [initState] at h
  split at h
  · exact absurd h (by simp)
  · simp only [Except.ok.injEq] at h
    subst h
    exact create_chat_header_count n f ([] : AvatarCache) m0 []
      (fun _ => rfl) (by simp)

/-- How `main` decomposes on a nonempty message list. -/
theorem main_cons (u : String) (outD : Option String) (s e k : Option String)
    (f : String → Bool → Option String) (fs0 : List String) (m0 : Msg)
    (rest : List Msg) :
    main u outD s e k f fs0 (m0 :: rest) =
      match initState u outD f fs0 m0 with
      | .error p => .error p
      | .ok st0 =>
        match List.foldlM (stepMsg u f) st0 (m0 :: rest) with
        | .error p => .error p
        | .ok st =>
          .ok { code := 0,
                effs := (finalizeRun (coverTitleText u s e k) st).effs,
                finalState := some (finalizeRun (coverTitleText u s e k) st) } := rfl

/-- C6: the first avatar resolution for a chat name performs exactly
one collaborator fetch, with the lookup branch (`is_dm` flag) chosen by
`is_group`, and stores the returned URL (possibly absent) keyed by the
chat name; a later resolution for the same name returns the stored
value with no fetch; consequently a whole run of `main` makes at most
one fetch per distinct chat name. -/
theorem avatar_cache_single_fetch :
    (∀ (f : String → Bool → Option String) (cache : AvatarCache) (m : Msg)
        (av : Option String),
        cache.lookup m.chat = some av →
        create_chat_header f cache m =
          ({ chat := m.chat, avatar := av, isGroup := m.isGroup }, cache, []))
    ∧ (∀ (f : String → Bool → Option String) (cache : AvatarCache) (m : Msg),
        cache.lookup m.chat = none →
        create_chat_header f cache m =
          ({ chat := m.chat,
             avatar := if m.isGroup then f m.chat false else f m.chat true,
             isGroup := m.isGroup },
           (m.chat, if m.isGroup then f m.chat false else f m.chat true) :: cache,
           [(m.chat, !m.isGroup)]))
    ∧ (∀ (u : String) (outD : Option String) (s e k : Option String)
        (f : String → Bool → Option String) (fs0 : List String)
        (msgs : List Msg) (n : String),
        runFetchCount n (main u outD s e k f fs0 msgs) ≤ 1) := by
  refine ⟨?_, ?_, ?_⟩
  · intro f cache m av hc
    simp [create_chat_header, hc]
  · intro f cache m hc
    simp [create_chat_header, hc]
  · intro u outD s e k f fs0 msgs n
    cases msgs with
    | nil => simp [main, runFetchCount, runState]
    | cons m0 rest =>
      rw [main_cons]
      cases hinit : initState u outD f fs0 m0 with
      | error p => simp [runFetchCount, runState]
      | ok st0 =>
        cases hfold : List.foldlM (stepMsg u f) st0 (m0 :: rest) with
        | error p =>
          have hI0 := initState_fetchInv n u outD f fs0 m0 st0 hinit
          rw [List.foldlM_cons] at hfold
          simp [hfold, runFetchCount, runState]
        | ok st =>
          have hI0 := initState_fetchInv n u outD f fs0 m0 st0 hinit
          have hI := foldlM_except_inv (FetchInv n) (stepMsg u f)
            (fun a b c hP hstep => stepMsg_fetchInv n u f a b c hP hstep)
            (m0 :: rest) st0 st hI0 hfold
          rw [List.foldlM_cons] at hfold
          simpa [hfold, runFetchCount, runState, finalizeRun] using hI.2

/-- Witness for `avatar_cache_single_fetch`: a cached name is returned
without a fetch event. -/
theorem avatar_cache_single_fetch_witness :
    ([("X", some "x.png")] : AvatarCache).lookup (sampleMsg "X" 1 5 2024).chat =
      some (some "x.png") ∧
    create_chat_header noAvatarFetch [("X", some "x.png")] (sampleMsg "X" 1 5 2024) =
      ({ chat := "X", avatar := some "x.png", isGroup := true },
       [("X", some "x.png")], []) :=
  ⟨by decide,
   avatar_cache_single_fetch.1 noAvatarFetch [("X", some "x.png")]
     (sampleMsg "X" 1 5 2024) (some "x.png") (by decide)⟩

/-- Days with the same segment index share the segment's first day. -/
theorem segStartNum_congr (a b : Nat)
    (h : calculate_month_segment a = calculate_month_segment b) :
    segStartNum a = segStartNum b := by
  unfold calculate_month_segment at h
  unfold segStartNum
  split_ifs at h ⊢ <;> omega

/-- Inside a segment the buffer length stays below 11. -/
theorem buffer_len_bound (len d : Nat) (h : len + segStartNum d ≤ d)
    (h31 : d ≤ 31) : len + 1 ≤ 11 := by
  unfold segStartNum at h
  split_ifs at h <;> omega

/-- A fresh segment satisfies its start-day inequality. -/
theorem segStartNum_le (d : Nat) (h1 : 1 ≤ d) : segStartNum d ≤ d := by
  unfold segStartNum
  split_ifs <;> omega

/-- Each loop iteration preserves the buffer-bound invariant when the
message's day number is valid and not smaller than the current day. -/
theorem stepMsg_inv2 (u : String) (f : String → Bool → Option String)
    (st : BState) (m : Msg) (st' : BState)
    (hI : Inv2 st) (hd1 : 1 ≤ m.day) (hd31 : m.day ≤ 31)
    (hle : st.currDay ≤ m.day) (h : stepMsg u f st m = .ok st') :
    Inv2 st' ∧ st'.currDay ≤ m.day := by
  obtain ⟨hseg, hbuf, hday, hmax⟩ := hI
  unfold stepMsg at h
  split_ifs at h with h1 h2 h3
  · simp only [Except.ok.injEq] at h
    subst h
    exact ⟨⟨hseg, hbuf, hday, hmax⟩, hle⟩
  · simp only [Except.ok.injEq] at h
    subst h
    exact ⟨⟨hseg, hbuf, hday, hmax⟩, hle⟩
  · simp only [Except.ok.injEq] at h
    subst h
    have hcong : segStartNum m.day = segStartNum st.currDay :=
      segStartNum_congr m.day st.currDay (h3.trans hseg)
    have hlt : st.currDay < m.day := by omega
    have hlen : (stepDayInSeg u f st m).segmentPages.length =
        st.segmentPages.length + 1 := by
      simp [stepDayInSeg]
    refine ⟨⟨?_, ?_, hd31, ?_⟩, le_refl _⟩
    · show st.currSeg = calculate_month_segment m.day
      omega
    · rw [hlen]
      show st.segmentPages.length + 1 + segStartNum m.day ≤ m.day
      omega
    · show max st.maxBuf (st.segmentPages ++ [(st.currDay,
        addChatToPage st.dayPage st.chatHeader st.msgContainer)]).length ≤ 11
      have := buffer_len_bound st.segmentPages.length st.currDay hbuf hday
      simp only [List.length_append, List.length_cons, List.length_nil]
      omega
  · simp only [stepSegChange] at h
    split at h
    · exact absurd h (by simp)
    · simp only [Except.ok.injEq] at h
      subst h
      refine ⟨⟨rfl, ?_, hd31, ?_⟩, le_refl _⟩
      · show 0 + segStartNum m.day ≤ m.day
        have := segStartNum_le m.day hd1
        omega
      · show max st.maxBuf (st.segmentPages ++ [(st.currDay,
          addChatToPage st.dayPage st.chatHeader st.msgContainer)]).length ≤ 11
        have := buffer_len_bound st.segmentPages.length st.currDay hbuf hday
        simp only [List.length_append, List.length_cons, List.length_nil]
        omega

/-- The pre-loop setup establishes the buffer-bound invariant. -/
theorem initState_inv2 (u : String) (outD : Option String)
    (f : String → Bool → Option String) (fs0 : List String) (m0 : Msg)
    (st0 : BState) (hd1 : 1 ≤ m0.day) (hd31 : m0.day ≤ 31)
    (h : initState u outD f fs0 m0 = .ok st0) :
    Inv2 st0 ∧ st0.currDay = m0.day := by
  simp only [initState] at h
  split at h
  · exact absurd h (by simp)
  · simp only [Except.ok.injEq] at h
    subst h
    refine ⟨⟨rfl, ?_, hd31, by simp⟩, rfl⟩
    show 0 + segStartNum m0.day ≤ m0.day
    have := segStartNum_le m0.day hd1
    omega

/-- The buffer-bound invariant holds after folding the loop over a
day-sorted message list with valid day numbers. -/
theorem foldlM_inv2 (u : String) (f : String → Bool → Option String) :
    ∀ (l : List Msg) (st st' : BState),
      Inv2 st → (∀ m ∈ l, 1 ≤ m.day ∧ m.day ≤ 31) →
      List.Chain' (fun a b : Msg => a.day ≤ b.day) l →
      (∀ m ∈ l.head?, st.currDay ≤ m.day) →
      List.foldlM (stepMsg u f) st l = .ok st' → Inv2 st' := by
  intro l
  induction l with
  | nil =>
    intro st st' hI _ _ _ h
    simp only [List.foldlM_nil] at h
    cases h
    exact hI
  | cons m l ih =>
    intro st st' hI hdays hchain hhead h
    rw [List.foldlM_cons] at h
    cases hfa : stepMsg u f st m with
    | error e =>
      rw [hfa] at h
      exact absurd h (by simp [Bind.bind, Except.bind])
    | ok s1 =>
      rw [hfa] at h
      have hm := hdays m (List.mem_cons_self m l)
      have hst : st.currDay ≤ m.day := hhead m (by simp)
      obtain ⟨hI1, hle1⟩ := stepMsg_inv2 u f st m s1 hI hm.1 hm.2 hst hfa
      refine ih s1 st' hI1 (fun x hx => hdays x (List.mem_cons_of_mem m hx))
        (List.chain'_cons'.mp hchain).2 ?_
        (by simpa [Bind.bind, Except.bind] using h)
      intro m2 hm2
      have := (List.chain'_cons'.mp hchain).1 m2 hm2
      omega

/-- C2 amended: over any in-order run whose day-of-month numbers are
non-decreasing and valid (in particular any run confined to a single
calendar month), the open-segment page buffer — including the moment a
closed segment is flushed — holds at most 11 entries, one per distinct
day of one segment; 11 is attained (third segment of a 31-day month),
so the claimed bound of 10 fails but no in-order single-month history,
however long, exceeds 11. -/
theorem open_segment_buffer_bound (u : String) (outD : Option String)
    (s e k : Option String) (f : String → Bool → Option String)
    (fs0 : List String) (m0 : Msg) (rest : List Msg)
    (hdays : ∀ m ∈ m0 :: rest, 1 ≤ m.day ∧ m.day ≤ 31)
    (hchain : List.Chain' (fun a b : Msg => a.day ≤ b.day) (m0 :: rest)) :
    runMaxBuf (main u outD s e k f fs0 (m0 :: rest)) ≤ 11 := by
  rw [main_cons]
  cases hinit : initState u outD f fs0 m0 with
  | error p => simp [runMaxBuf, runState]
  | ok st0 =>
    cases hfold : List.foldlM (stepMsg u f) st0 (m0 :: rest) with
    | error p =>
      rw [List.foldlM_cons] at hfold
      simp [hfold, runMaxBuf, runState]
    | ok st =>
      obtain ⟨hI0, hday0⟩ := initState_inv2 u outD f fs0 m0 st0
        (hdays m0 (List.mem_cons_self m0 rest)).1
        (hdays m0 (List.mem_cons_self m0 rest)).2 hinit
      have hI : Inv2 st := foldlM_inv2 u f (m0 :: rest) st0 st hI0 hdays hchain
        (by intro x hx; simp at hx; subst hx; omega) hfold
      obtain ⟨hseg, hbuf, hday, hmax⟩ := hI
      have hfin : (finalizeRun (coverTitleText u s e k) st).maxBuf =
          max st.maxBuf (st.segmentPages.length + 1) := by
        simp [finalizeRun]
      have := buffer_len_bound st.segmentPages.length st.currDay hbuf hday
      simp only [hfold, runMaxBuf, runState]
      rw [hfin]
      omega

/-- Witness for `open_segment_buffer_bound`: a two-day January run
keeps the buffer within 11. -/
theorem open_segment_buffer_bound_witness :
    ((∀ m ∈ [sampleMsg "A" 1 5 2024, sampleMsg "A" 1 6 2024],
        1 ≤ m.day ∧ m.day ≤ 31) ∧
      List.Chain' (fun a b : Msg => a.day ≤ b.day)
        [sampleMsg "A" 1 5 2024, sampleMsg "A" 1 6 2024]) ∧
    runMaxBuf (main "User" none none none none noAvatarFetch []
      [sampleMsg "A" 1 5 2024, sampleMsg "A" 1 6 2024]) ≤ 11 :=
  ⟨⟨by decide, List.chain'_pair.mpr (by decide)⟩,
   open_segment_buffer_bound "User" none none none none noAvatarFetch []
     (sampleMsg "A" 1 5 2024) [sampleMsg "A" 1 6 2024] (by decide)
     (List.chain'_pair.mpr (by decide))⟩

end GroupMeQuery
